import Mathlib

/-!
Verification development for the cockpit repository: a CLI that provisions
ephemeral "Sprite" sandboxes (src/cli.ts) and a web dashboard with a
WebSocket agent bridge (src/web/index.ts, src/web/agent-bridge.ts).

Each definition below is a shallow embedding of one function of the source:
pure string manipulation becomes a Lean function on lists of characters,
the event-loop concurrency of the bridge becomes explicit atomic steps on a
bridge state (JavaScript code between two awaits runs atomically on the
single event-loop thread), and external collaborators (git, JSON.parse,
the sprite binary) become oracle parameters whose outcomes the embedded
control flow inspects exactly as the source does.
-/

namespace Cockpit

/-! ### CLI cleanup policy (src/cli.ts, cmdCreate lines 1032-1057)

The create pipeline tracks `spriteReady` (set after the sanity-check step),
`tmuxBound` (set after binding the tmux window, which happens only when
`inTmux`), and a `cleaningUp` latch.  `cleanup` destroys the sprite when
`!spriteReady || qa || qaTurn || !inTmux`, and clears the tmux binding
afterwards when it was bound. -/

/-- Flags fixed for one run of cmdCreate: the two QA modes and whether the
process runs inside tmux. -/
structure CreateFlags where
  qa : Bool
  qaTurn : Bool
  inTmux : Bool
deriving DecidableEq

/-- Mutable locals of cmdCreate that the cleanup closure reads. -/
structure PipelineState where
  spriteReady : Bool
  tmuxBound : Bool
  cleaningUp : Bool
deriving DecidableEq

/-- Commands the cleanup closure can issue to the outside world. -/
inductive CleanupCmd where
  | destroySprite (name : String) (force : Bool)
  | clearBinding
deriving DecidableEq

/-- Shallow embedding of the `cleanup` closure in cmdCreate: a latch makes
a second call a no-op; destruction happens iff
`!spriteReady || qa || qaTurn || !inTmux`; the tmux binding is cleared
only on the destroy path and only when it was bound. -/
def cleanupRun (name : String) (fl : CreateFlags) (st : PipelineState) :
    List CleanupCmd × PipelineState :=
  if st.cleaningUp then ([], st)
  else
    let st1 : PipelineState := { st with cleaningUp := true }
    if !st.spriteReady || fl.qa || fl.qaTurn || !fl.inTmux then
      (CleanupCmd.destroySprite name true ::
        (if st.tmuxBound then [CleanupCmd.clearBinding] else []), st1)
    else ([], st1)

/-- States of the cmdCreate locals reachable before cleanup runs: they start
all-false; the sanity-check step sets `spriteReady`; the bind step sets
`tmuxBound`, and the source guards that step by `inTmux`
(src/cli.ts lines 1207-1212). -/
inductive ReachableCreateState (fl : CreateFlags) : PipelineState → Prop where
  | init : ReachableCreateState fl
      { spriteReady := false, tmuxBound := false, cleaningUp := false }
  | ready {st : PipelineState} : ReachableCreateState fl st →
      ReachableCreateState fl { st with spriteReady := true }
  | bind {st : PipelineState} : ReachableCreateState fl st →
      fl.inTmux = true → ReachableCreateState fl { st with tmuxBound := true }

/-! ### Sandbox naming (src/cli.ts, sanitizeName lines 505-511)

`sanitizeName` lowercases, replaces each maximal run of characters outside
`[a-z0-9-]` by one hyphen, strips leading and trailing hyphen runs, and
finally truncates to 50 characters. -/

/-- JS `toLowerCase()` over the character sequence (per-character ASCII
lowering; the regex replace that follows sends anything outside the slug
alphabet to a hyphen, so exotic Unicode lowerings land in the same
place either way). -/
def toLowerChars (s : String) : List Char := s.data.map Char.toLower

/-- Characters the slug alphabet allows: lowercase ASCII letters, digits,
hyphen (the regex class `[a-z0-9-]`). -/
def isSlugChar (c : Char) : Bool :=
  ('a' ≤ c && c ≤ 'z') || ('0' ≤ c && c ≤ '9') || c == '-'

/-- Hyphen test used by the trim regex `/^-+|-+$/g`. -/
def isHyphen (c : Char) : Bool := c == '-'

/-- Worker for the regex replace `/[^a-z0-9-]+/g → "-"`: `inRun` records
whether the previous character was part of a disallowed run. -/
def collapseRunsAux (inRun : Bool) : List Char → List Char
  | [] => []
  | c :: cs =>
    if isSlugChar c then c :: collapseRunsAux false cs
    else if inRun then collapseRunsAux true cs
    else '-' :: collapseRunsAux true cs

/-- Replace each maximal run of non-slug characters by a single hyphen. -/
def collapseRuns (l : List Char) : List Char := collapseRunsAux false l

/-- Strip the trailing hyphen run (`-+$` half of the trim regex). -/
def dropTrailingHyphens (l : List Char) : List Char :=
  (l.reverse.dropWhile isHyphen).reverse

/-- Strip leading and trailing hyphen runs (the regex `/^-+|-+$/g`). -/
def trimHyphens (l : List Char) : List Char :=
  dropTrailingHyphens (l.dropWhile isHyphen)

/-- Shallow embedding of sanitizeName:
`name.toLowerCase().replace(/[^a-z0-9-]+/g,"-").replace(/^-+|-+$/g,"").slice(0,50)`. -/
def sanitizeName (s : String) : String :=
  String.mk ((trimHyphens (collapseRuns (toLowerChars s))).take 50)

/-! ### Sprite existence probe and attach subcommand
(src/cli.ts, probeSpriteExistence lines 612-629, cmdAttach lines 790-814) -/

/-- Outcome of the existence probe. -/
inductive SpriteExistence where
  | yes
  | no
  | unknown
deriving DecidableEq

/-- Contiguous occurrence of `pat` inside a character list (the JS
`String.includes` check). -/
def occursIn (pat : List Char) : List Char → Bool
  | [] => pat.isEmpty
  | c :: tl => pat.isPrefixOf (c :: tl) || occursIn pat tl

/-- JS `hay.includes(pat)` on strings. -/
def strIncludes (hay pat : String) : Bool := occursIn pat.data hay.data

/-- Shallow embedding of probeSpriteExistence: dry-run reports `yes`;
exit code 0 reports `yes`; otherwise the combined output, lowercased, is
scanned for the two recognizable not-found phrases; anything else is
`unknown`. -/
def probeSpriteExistence (dryRun : Bool) (exitCode : Nat) (combinedOut : String) :
    SpriteExistence :=
  if dryRun then .yes
  else if exitCode = 0 then .yes
  else
    let lower := toLowerChars combinedOut
    if occursIn "sprite not found".data lower || occursIn "no such sprite".data lower then .no
    else .unknown

/-- How one invocation of `cockpit attach` ends. -/
inductive AttachOutcome where
  | attached (name : String)
  | errNoBinding
  | errStale (name : String)
  | errUnverified (name : String)
deriving DecidableEq

/-- Shallow embedding of cmdAttach (given the window binding and the probe
outcome per sprite name): no binding fails with the run-create-first error;
a probe `no` clears the binding and fails with the recreate error; a probe
`unknown` fails and keeps the binding; a probe `yes` attaches.  The second
component is the binding left behind. -/
def cmdAttach (binding : Option String) (probeOf : String → SpriteExistence) :
    AttachOutcome × Option String :=
  match binding with
  | none => (.errNoBinding, none)
  | some name =>
    match probeOf name with
    | .no => (.errStale name, none)
    | .unknown => (.errUnverified name, some name)
    | .yes => (.attached name, some name)

/-! ### Remote clone script (src/cli.ts, remoteCloneScript lines 663-689)

The generated shell script runs under `set -eu`: it tries
`git clone --depth 1 --branch <b>`; on failure it prints a WARN line to
stderr, removes the work dir, and runs `git clone --depth 1` of the default
branch; the script's exit code is the last command's. -/

/-- Outcomes of the two git invocations the script can make, supplied by
the external git collaborator. -/
structure CloneWorld where
  branchCloneOk : Bool
  defaultCloneOk : Bool
deriving DecidableEq

/-- Which branch ended up checked out. -/
inductive CloneChoice where
  | requestedBranch
  | defaultBranch
deriving DecidableEq

/-- Observable result of one run of the clone script. -/
structure CloneResult where
  exitCode : Nat
  warned : Bool
  cloned : Option CloneChoice
  shallow : Bool
deriving DecidableEq

/-- Shallow embedding of the script produced by remoteCloneScript. -/
def runRemoteCloneScript (w : CloneWorld) : CloneResult :=
  if w.branchCloneOk then
    { exitCode := 0, warned := false, cloned := some .requestedBranch, shallow := true }
  else if w.defaultCloneOk then
    { exitCode := 0, warned := true, cloned := some .defaultBranch, shallow := true }
  else
    { exitCode := 1, warned := true, cloned := none, shallow := true }

/-- Whether runOk (src/cli.ts lines 565-577) throws for a given exit code:
it throws exactly when failure is not allowed and the code is non-zero.
cmdCreate invokes the clone step without allowFailure. -/
def runOkThrows (allowFailure : Bool) (exitCode : Nat) : Bool :=
  !allowFailure && exitCode != 0

/-! ### WebSocket protocol types (src/web/agent-bridge.ts, src/web/index.ts) -/

/-- Kind tag of an inbound client message (`type` field); values other than
the two known ones fall through the dispatch switch. -/
inductive MsgKind where
  | prompt
  | abort
  | unknownKind
deriving DecidableEq

/-- Inbound client message: `payloadText` is `msg.payload?.text`, `none`
covering both a missing payload and a missing text field. -/
structure ClientMessage where
  kind : MsgKind
  payloadText : Option String
deriving DecidableEq

/-- Outbound event sent over one transport. -/
inductive OutEvent where
  | connectedEv (spriteId : String)
  | errorEv (message : String)
  | agentEv (n : Nat)
deriving DecidableEq

/-- Raw inbound WebSocket payload as the message handler sees it:
an adapter-parsed object carrying a `type` field, a text frame, a binary
frame that decodes to text, an adapter wrapper `{ data: ... }`, or anything
else (undecodable). -/
inductive RawWsMsg where
  | parsedObj (m : ClientMessage)
  | text (s : String)
  | binary (s : String)
  | wrapped (inner : RawWsMsg)
  | other
deriving DecidableEq

/-- Shallow embedding of decodeWsMessage (src/web/index.ts lines 308-321):
strings pass through, binary frames decode, `{ data }` wrappers recurse,
everything else yields null.  An object with a `type` field never reaches
this function (the handler short-circuits), and if it did it has no `data`
field, so it decodes to null here. -/
def decodeWsMessage : RawWsMsg → Option String
  | .parsedObj _ => none
  | .text s => some s
  | .binary s => some s
  | .wrapped inner => decodeWsMessage inner
  | .other => none

/-- Outcome of `JSON.parse(raw) as ClientMessage`, supplied by the external
JSON collaborator: a truthy parsed object, a falsy result (e.g. the text
"null"), or a thrown parse error. -/
inductive JsonOutcome where
  | okMsg (m : ClientMessage)
  | okNull
  | parseError (e : String)
deriving DecidableEq

/-- What one run of the `message` handler did: events it sent itself,
the message it forwarded to handleClientMessage, and whether it closed the
connection. -/
structure MsgStepResult where
  sent : List OutEvent
  forwarded : Option ClientMessage
  closedConn : Bool
deriving DecidableEq

/-- Shallow embedding of the `message` WebSocket handler
(src/web/index.ts lines 227-267): already-parsed objects with a `type`
field are forwarded directly; otherwise the payload is decoded (failure:
one error event, return), JSON-parsed (failure: one error event, return),
null-checked (one error event, return), then forwarded.  No path closes
the connection. -/
def wsMessage (parse : String → JsonOutcome) (msg : RawWsMsg) : MsgStepResult :=
  match msg with
  | .parsedObj m => { sent := [], forwarded := some m, closedConn := false }
  | _ =>
    match decodeWsMessage msg with
    | none =>
      { sent := [.errorEv "Invalid WebSocket message"], forwarded := none, closedConn := false }
    | some raw =>
      match parse raw with
      | .parseError e =>
        { sent := [.errorEv ("Invalid message: " ++ e)], forwarded := none, closedConn := false }
      | .okNull =>
        { sent := [.errorEv "Invalid WebSocket message"], forwarded := none, closedConn := false }
      | .okMsg m => { sent := [], forwarded := some m, closedConn := false }

/-- Processing of a stream of inbound frames on one connection: frames are
handled in order for as long as the connection stays open. -/
def wsMessages (parse : String → JsonOutcome) : List RawWsMsg → List MsgStepResult
  | [] => []
  | m :: ms =>
    let r := wsMessage parse m
    if r.closedConn then [r] else r :: wsMessages parse ms

/-! ### Agent bridge state (src/web/agent-bridge.ts)

JavaScript interleaves the bridge's async operations on one event-loop
thread, so every synchronous stretch between two awaits is one atomic step.
getOrCreateAgent has exactly one await (createAgentSession), splitting it
into a lookup step and a creation-completion step; the `.then` callback of
setupAgentWebSocket (subscribe, store unsubscribe, send connected) is one
further atomic step.  Connection objects live on a heap because a callback
can hold one that a later map insertion has already displaced. -/

/-- One subscription registered on an agent session: the token identifies
it for the corresponding unsubscribe closure. -/
structure Subscription where
  token : Nat
  transport : Nat
deriving DecidableEq

/-- One AgentConnection object: the underlying session and the token the
stored unsubscribe closure would remove (`none` models the initial no-op
`() => {}`). -/
structure ConnObj where
  sessionId : Nat
  unsubTok : Option Nat
deriving DecidableEq

/-- State of the bridge module: connection-object heap, the
activeConnections map (sprite id to connection object), per-session
subscription lists, fresh-id counters, the number of createAgentSession
completions, and the ordered log of (transport, event) sends. -/
structure BridgeState where
  heap : List (Nat × ConnObj)
  table : List (String × Nat)
  sessions : List (Nat × List Subscription)
  nextConn : Nat
  nextSession : Nat
  nextToken : Nat
  created : Nat
  outbox : List (Nat × OutEvent)
deriving DecidableEq

/-- Bridge state at module load: empty maps, zero counters. -/
def emptyBridge : BridgeState :=
  { heap := [], table := [], sessions := [], nextConn := 0, nextSession := 0,
    nextToken := 0, created := 0, outbox := [] }

/-- Update the subscription list of one session in place. -/
def updateSess (sid : Nat) (f : List Subscription → List Subscription)
    (l : List (Nat × List Subscription)) : List (Nat × List Subscription) :=
  l.map (fun p => if p.1 = sid then (p.1, f p.2) else p)

/-- Update one connection object on the heap in place. -/
def updateHeap (cid : Nat) (f : ConnObj → ConnObj) (l : List (Nat × ConnObj)) :
    List (Nat × ConnObj) :=
  l.map (fun p => if p.1 = cid then (p.1, f p.2) else p)

/-- Result of the synchronous head of getOrCreateAgent. -/
inductive GetResult where
  | hit (cid : Nat)
  | awaitCreate
deriving DecidableEq

/-- Atomic step 1 of getOrCreateAgent (lines 23-26): read the map; a hit
resolves immediately with the existing connection object, a miss starts
createAgentSession and suspends. -/
def getLookup (st : BridgeState) (spriteId : String) : GetResult :=
  match st.table.lookup spriteId with
  | some cid => .hit cid
  | none => .awaitCreate

/-- Atomic step 2 of getOrCreateAgent (lines 28-40), run when
createAgentSession resolves: a fresh session and connection object are
allocated and the map entry is set (displacing any entry written since the
lookup).  Returns the new connection object's id. -/
def createComplete (st : BridgeState) (spriteId : String) : Nat × BridgeState :=
  let sid := st.nextSession
  let cid := st.nextConn
  (cid,
    { st with
      heap := (cid, { sessionId := sid, unsubTok := none }) :: st.heap,
      sessions := (sid, []) :: st.sessions,
      table := (spriteId, cid) :: st.table,
      nextConn := cid + 1,
      nextSession := sid + 1,
      created := st.created + 1 })

/-- Atomic `.then` callback of setupAgentWebSocket (lines 75-84): subscribe
a new handler for this transport on the connection's session, overwrite the
stored unsubscribe with the new one, and send `connected` to this
transport. -/
def subscribeStep (st : BridgeState) (transport : Nat) (spriteId : String) (cid : Nat) :
    BridgeState :=
  match st.heap.lookup cid with
  | none => st
  | some obj =>
    let tok := st.nextToken
    { st with
      sessions := updateSess obj.sessionId
        (fun subs => subs ++ [{ token := tok, transport := transport }]) st.sessions,
      heap := updateHeap cid (fun o => { o with unsubTok := some tok }) st.heap,
      nextToken := tok + 1,
      outbox := st.outbox ++ [(transport, .connectedEv spriteId)] }

/-- The agent session emits one event: every currently subscribed handler
forwards it verbatim to its transport, in subscription order. -/
def emitEvent (st : BridgeState) (sid : Nat) (n : Nat) : BridgeState :=
  match st.sessions.lookup sid with
  | none => st
  | some subs =>
    { st with outbox := st.outbox ++ subs.map (fun sub => (sub.transport, OutEvent.agentEv n)) }

/-- Shallow embedding of handleAgentClose (lines 115-124): look the sprite
up; if a connection exists, invoke the stored unsubscribe (removing the
subscription carrying its token) and deliberately keep the map entry and
the session. -/
def handleAgentClose (st : BridgeState) (spriteId : String) : BridgeState :=
  match st.table.lookup spriteId with
  | none => st
  | some cid =>
    match st.heap.lookup cid with
    | none => st
    | some obj =>
      match obj.unsubTok with
      | none => st
      | some tok =>
        { st with
          sessions := updateSess obj.sessionId
            (fun subs => subs.filter (fun sub => sub.token ≠ tok)) st.sessions }

/-- A full, uninterleaved run of setupAgentWebSocket for one transport:
lookup, creation completion when the lookup missed, then the subscribe
callback. -/
def connectFresh (st : BridgeState) (transport : Nat) (spriteId : String) : BridgeState :=
  match getLookup st spriteId with
  | .hit cid => subscribeStep st transport spriteId cid
  | .awaitCreate =>
    let (cid, st1) := createComplete st spriteId
    subscribeStep st1 transport spriteId cid

/-- Shallow embedding of handleClientMessage (lines 90-113): an unknown
sprite id surfaces the no-active-session error; a prompt with truthy text
forwards it to the session; a prompt with missing or empty text does
nothing; abort signals the session; unknown kinds fall through. -/
inductive AgentCommand where
  | promptAgent (sessionId : Nat) (text : String)
  | abortAgent (sessionId : Nat)
deriving DecidableEq

/-- What one call of handleClientMessage did: errors surfaced through the
sendError callback and the command issued to the agent session. -/
structure HandleResult where
  errorsSent : List String
  command : Option AgentCommand
deriving DecidableEq

/-- The dispatch body of handleClientMessage over the bridge state. -/
def handleClientMessage (st : BridgeState) (spriteId : String) (msg : ClientMessage) :
    HandleResult :=
  match st.table.lookup spriteId with
  | none => { errorsSent := ["No active session"], command := none }
  | some cid =>
    match st.heap.lookup cid with
    | none => { errorsSent := [], command := none }
    | some obj =>
      match msg.kind with
      | .prompt =>
        match msg.payloadText with
        | some t =>
          if t = "" then { errorsSent := [], command := none }
          else { errorsSent := [], command := some (.promptAgent obj.sessionId t) }
        | none => { errorsSent := [], command := none }
      | .abort => { errorsSent := [], command := some (.abortAgent obj.sessionId) }
      | .unknownKind => { errorsSent := [], command := none }

/-- Errors surfaced by the `.catch` attached to `session.prompt(text)`
(line 102-104): a rejection becomes one error sent through sendError. -/
def promptCompletionErrors : Except String Unit → List String
  | .error e => [e]
  | .ok _ => []

/-! ### WebSocket open handler (src/web/index.ts lines 211-226) -/

/-- Sprite registry record fields the open handler consumes. -/
structure SpriteInfo where
  id : String
  cwd : String
deriving DecidableEq

/-- What one run of the `open` handler did. -/
structure OpenResult where
  sent : List OutEvent
  closedConn : Bool
  setupCalled : Bool
  statusUpdate : Option String
deriving DecidableEq

/-- Shallow embedding of the `open` handler: a registered sprite gets
setupAgentWebSocket plus a status update to "working"; an unknown id gets
one error event and a close, with no setup and no status update. -/
def wsOpen (storeGet : String → Option SpriteInfo) (spriteId : String) : OpenResult :=
  match storeGet spriteId with
  | some _ =>
    { sent := [], closedConn := false, setupCalled := true, statusUpdate := some "working" }
  | none =>
    { sent := [OutEvent.errorEv "Sprite not found"], closedConn := true,
      setupCalled := false, statusUpdate := none }

/-! ### Concrete bridge schedules used by the claims -/

/-- Near-simultaneous schedule for one unseen sprite id: both transports
run the getOrCreateAgent lookup (both miss, lookups do not write state)
before either createAgentSession resolves; then both creations complete and
both subscribe callbacks run. -/
def bridgeInterleavedPair : BridgeState :=
  let r1 := getLookup emptyBridge "s1"
  let r2 := getLookup emptyBridge "s1"
  match r1, r2 with
  | .awaitCreate, .awaitCreate =>
    let (cid1, st1) := createComplete emptyBridge "s1"
    let (cid2, st2) := createComplete st1 "s1"
    let st3 := subscribeStep st2 1 "s1" cid1
    subscribeStep st3 2 "s1" cid2
  | _, _ => emptyBridge

/-- Sequential schedule: the second connect begins only after the first has
fully completed. -/
def bridgeSequentialPair : BridgeState :=
  connectFresh (connectFresh emptyBridge 1 "s1") 2 "s1"

/-- Two completed connects for the same sprite with no intervening close,
then one agent event. -/
def bridgeDoubleConnect : BridgeState :=
  emitEvent bridgeSequentialPair 0 0

/-- Connect, transport close, reconnect on a second transport, then one
agent event carrying `n`. -/
def bridgeReconnect (n : Nat) : BridgeState :=
  emitEvent (connectFresh (handleAgentClose (connectFresh emptyBridge 1 "s1") "s1") 2 "s1") 0 n

/-- Connect, one event, transport close, reconnect, second event. -/
def bridgeCloseResume (e1 e2 : Nat) : BridgeState :=
  let st1 := connectFresh emptyBridge 1 "s1"
  let st2 := emitEvent st1 0 e1
  let st3 := handleAgentClose st2 "s1"
  let st4 := connectFresh st3 2 "s1"
  emitEvent st4 0 e2

/-! ## Helper lemmas -/

/-- Reachable cmdCreate states have not yet entered cleanup. -/
theorem reachable_cleaningUp_false {fl : CreateFlags} {st : PipelineState}
    (h : ReachableCreateState fl st) : st.cleaningUp = false := by
  induction h with
  | init => rfl
  | ready _ ih => simpa using ih
  | bind _ _ ih => simpa using ih

/-- In reachable cmdCreate states, a tmux binding implies running in tmux,
because the bind step is guarded by `inTmux`. -/
theorem reachable_bound_imp_tmux {fl : CreateFlags} {st : PipelineState}
    (h : ReachableCreateState fl st) : st.tmuxBound = true → fl.inTmux = true := by
  induction h with
  | init => intro hb; cases hb
  | ready _ ih => simpa using ih
  | bind _ htmux _ => intro _; exact htmux

/-- Every character the run-collapsing pass emits is in the slug alphabet. -/
theorem collapseRunsAux_mem_slug (l : List Char) :
    ∀ (b : Bool), ∀ c ∈ collapseRunsAux b l, isSlugChar c = true := by
  induction l with
  | nil => intro b c hc; simp [collapseRunsAux] at hc
  | cons a tl ih =>
    intro b c hc
    by_cases ha : isSlugChar a = true
    · simp only [collapseRunsAux, ha, if_true] at hc
      rcases List.mem_cons.mp hc with rfl | hc
      · exact ha
      · exact ih false c hc
    · simp only [collapseRunsAux, ha, if_false, Bool.false_eq_true] at hc
      cases b with
      | true => exact ih true c hc
      | false =>
        rcases List.mem_cons.mp hc with rfl | hc
        · decide
        · exact ih true c hc

/-- The head of a dropWhile result never satisfies the dropped predicate. -/
theorem head_dropWhile_not (p : Char → Bool) (l : List Char) :
    ∀ c, (l.dropWhile p).head? = some c → p c = false := by
  induction l with
  | nil => intro c hc; simp [List.dropWhile] at hc
  | cons a tl ih =>
    intro c hc
    by_cases ha : p a = true
    · rw [List.dropWhile_cons_of_pos ha] at hc
      exact ih c hc
    · rw [List.dropWhile_cons_of_neg ha] at hc
      simp only [List.head?_cons, Option.some.injEq] at hc
      subst hc
      simpa using ha

/-- A prefix has either no head or the same head as the whole list. -/
theorem prefix_head_eq_or_none {l₁ l₂ : List Char} (h : l₁ <+: l₂) :
    l₁.head? = none ∨ l₁.head? = l₂.head? := by
  obtain ⟨t, rfl⟩ := h
  cases l₁ with
  | nil => exact Or.inl rfl
  | cons a tl => exact Or.inr (by simp)

/-- Dropping the trailing hyphen run leaves a prefix of the input. -/
theorem dropTrailingHyphens_pre (l : List Char) : dropTrailingHyphens l <+: l := by
  obtain ⟨t, ht⟩ := List.dropWhile_suffix (l := l.reverse) isHyphen
  refine ⟨t.reverse, ?_⟩
  have := congrArg List.reverse ht
  simpa [dropTrailingHyphens, List.reverse_append] using this

/-- The last character surviving the trailing-hyphen strip is not a
hyphen. -/
theorem getLast_dropTrailingHyphens (l : List Char) :
    ∀ c, (dropTrailingHyphens l).getLast? = some c → isHyphen c = false := by
  intro c hc
  have hrev : (dropTrailingHyphens l).reverse = l.reverse.dropWhile isHyphen := by
    simp [dropTrailingHyphens]
  have : (l.reverse.dropWhile isHyphen).head? = some c := by
    rw [← hrev, List.head?_reverse]
    exact hc
  exact head_dropWhile_not isHyphen l.reverse c this

/-- Membership in the trimmed list implies membership before trimming. -/
theorem mem_trimHyphens {c : Char} {l : List Char} (h : c ∈ trimHyphens l) : c ∈ l := by
  have h1 : c ∈ l.dropWhile isHyphen := (dropTrailingHyphens_pre _).subset h
  exact (List.dropWhile_sublist isHyphen).subset h1

/-- The message handler never closes the connection itself. -/
theorem wsMessage_closedConn_false (parse : String → JsonOutcome) (msg : RawWsMsg) :
    (wsMessage parse msg).closedConn = false := by
  cases msg <;> simp only [wsMessage] <;>
    first
    | rfl
    | (rename_i arg
       cases hdec : decodeWsMessage _ with
       | none => simp [hdec]
       | some raw => cases hparse : parse raw <;> simp [hdec, hparse])

/-! ## Claim theorems -/

/-- Claim C1: for every run of cmdCreate cleanup from a reachable pipeline
state, if `ready` was never set cleanup issues the destroy command (also
under a tmux binding); if `ready` was set and a binding exists outside the
QA modes, no destroy is issued; and a destroy is issued exactly when
not-ready, or a QA mode is active, or the run is outside tmux. -/
theorem cleanup_destroy_policy (name : String) (fl : CreateFlags) (st : PipelineState)
    (h : ReachableCreateState fl st) :
    (st.spriteReady = false →
        CleanupCmd.destroySprite name true ∈ (cleanupRun name fl st).1) ∧
    (st.spriteReady = true → st.tmuxBound = true → fl.qa = false → fl.qaTurn = false →
        CleanupCmd.destroySprite name true ∉ (cleanupRun name fl st).1) ∧
    (CleanupCmd.destroySprite name true ∈ (cleanupRun name fl st).1 ↔
        (st.spriteReady = false ∨ fl.qa = true ∨ fl.qaTurn = true ∨ fl.inTmux = false)) := by
  have hcu : st.cleaningUp = false := reachable_cleaningUp_false h
  have hbt : st.tmuxBound = true → fl.inTmux = true := reachable_bound_imp_tmux h
  obtain ⟨ready, bound, cu⟩ := st
  obtain ⟨qa, qaTurn, inTmux⟩ := fl
  simp only at hcu hbt
  subst hcu
  cases ready <;> cases bound <;> cases qa <;> cases qaTurn <;> cases inTmux <;>
    simp_all [cleanupRun]

/-- Witness for C1 at a concrete reachable state: ready never set, window
bound, interactive in-tmux run; cleanup still issues the destroy. -/
theorem cleanup_destroy_policy_witness :
    CleanupCmd.destroySprite "cockpit-20260101-000000" true ∈
      (cleanupRun "cockpit-20260101-000000" ⟨false, false, true⟩
        { spriteReady := false, tmuxBound := true, cleaningUp := false }).1 :=
  (cleanup_destroy_policy "cockpit-20260101-000000" ⟨false, false, true⟩ _
    (ReachableCreateState.bind ReachableCreateState.init rfl)).1 rfl

/-- Claim C2 counterexample: in the near-simultaneous schedule for one
previously-unseen sprite id, both calls miss the map before either
createAgentSession resolves, so two underlying sessions are created, not
exactly one. -/
theorem bridge_interleaved_two_sessions :
    bridgeInterleavedPair.created = 2 ∧ bridgeInterleavedPair.created ≠ 1 := by
  constructor <;> decide

/-- Claim C2 (amended): getOrCreateAgent memoizes only completed creations:
a connect arriving while the first creation is still in flight creates a
second underlying session (the interleaved schedule creates two), while a
connect arriving after the first creation completed hits the map and
reuses the session (the sequential schedule creates one). -/
theorem bridge_creation_memoization :
    bridgeInterleavedPair.created = 2 ∧
    bridgeSequentialPair.created = 1 ∧
    getLookup (connectFresh emptyBridge 1 "s1") "s1" = GetResult.hit 0 := by
  refine ⟨?_, ?_, ?_⟩ <;> decide

/-- Claim C3 counterexample: after two connects for the same sprite with no
intervening transport close, an emitted agent event is forwarded to both
transports — the first transport (1) still receives the event after the
second transport (2) connected, so events are not forwarded only to the
most recently connected transport. -/
theorem bridge_double_connect_forwards_to_both :
    bridgeDoubleConnect.outbox =
      [(1, OutEvent.connectedEv "s1"), (2, OutEvent.connectedEv "s1"),
       (1, OutEvent.agentEv 0), (2, OutEvent.agentEv 0)] ∧
    (1, OutEvent.agentEv 0) ∈ bridgeDoubleConnect.outbox := by
  constructor <;> decide

/-- Claim C3 (amended): connect replaces the stored unsubscribe function
(the connection object holds exactly one), and the connected confirmation
reaches the new transport before any event forwarded to it; but a prior
transport's subscription is detached only when its close is handled, so
only after a close-then-reconnect are agent events forwarded solely to the
most recently connected transport. -/
theorem bridge_reconnect_single_live_transport (n : Nat) :
    (bridgeReconnect n).outbox =
      [(1, OutEvent.connectedEv "s1"), (2, OutEvent.connectedEv "s1"),
       (2, OutEvent.agentEv n)] ∧
    (bridgeReconnect n).sessions = [(0, [{ token := 1, transport := 2 }])] ∧
    (bridgeReconnect n).heap = [(0, { sessionId := 0, unsubTok := some 1 })] := by
  refine ⟨rfl, rfl, rfl⟩

/-- Claim C4: closing the transport detaches the subscription but keeps
the map entry and the session: the later connect finds the same connection
object (hit 0), no second session is created, the new transport gets a
fresh connected event before the next agent event, and the first transport
receives nothing further. -/
theorem bridge_close_keeps_session (e1 e2 : Nat) :
    (bridgeCloseResume e1 e2).created = 1 ∧
    (bridgeCloseResume e1 e2).table.lookup "s1" = some 0 ∧
    getLookup (handleAgentClose (emitEvent (connectFresh emptyBridge 1 "s1") 0 e1) "s1") "s1"
      = GetResult.hit 0 ∧
    (bridgeCloseResume e1 e2).outbox =
      [(1, OutEvent.connectedEv "s1"), (1, OutEvent.agentEv e1),
       (2, OutEvent.connectedEv "s1"), (2, OutEvent.agentEv e2)] := by
  refine ⟨rfl, rfl, rfl, rfl⟩

/-- Claim C5: attach with no binding fails with the run-create-first error
and changes nothing; a binding whose probe says not-found is cleared with
the recreate error, and a repeated attach then reports the no-binding
error; an ambiguous probe fails without clearing the binding. -/
theorem attach_binding_policy (probeOf : String → SpriteExistence)
    (binding : Option String) :
    (binding = none → cmdAttach binding probeOf = (AttachOutcome.errNoBinding, none)) ∧
    (∀ n, binding = some n → probeOf n = SpriteExistence.no →
        cmdAttach binding probeOf = (AttachOutcome.errStale n, none) ∧
        cmdAttach (cmdAttach binding probeOf).2 probeOf
          = (AttachOutcome.errNoBinding, none)) ∧
    (∀ n, binding = some n → probeOf n = SpriteExistence.unknown →
        cmdAttach binding probeOf = (AttachOutcome.errUnverified n, some n)) := by
  refine ⟨?_, ?_, ?_⟩
  · rintro rfl; rfl
  · rintro n rfl hp
    simp [cmdAttach, hp]
  · rintro n rfl hp
    simp [cmdAttach, hp]

/-- Witness for C5: a binding to a sprite whose probe output carries the
recognizable not-found phrase is cleared with the stale error, and the
repeated attach reports the no-binding error. -/
theorem attach_binding_policy_witness :
    cmdAttach (some "cockpit-1")
        (fun _ => probeSpriteExistence false 1 "Error: Sprite Not Found (cockpit-1)")
      = (AttachOutcome.errStale "cockpit-1", none) ∧
    cmdAttach
        (cmdAttach (some "cockpit-1")
          (fun _ => probeSpriteExistence false 1 "Error: Sprite Not Found (cockpit-1)")).2
        (fun _ => probeSpriteExistence false 1 "Error: Sprite Not Found (cockpit-1)")
      = (AttachOutcome.errNoBinding, none) :=
  (attach_binding_policy
    (fun _ => probeSpriteExistence false 1 "Error: Sprite Not Found (cockpit-1)")
    (some "cockpit-1")).2.1 "cockpit-1" rfl (by decide)

/-- Claim C6 counterexample: the trim of leading/trailing hyphens happens
before the slice to 50 characters, so an input whose 50th kept character
is a hyphen yields a slug with a trailing hyphen, contradicting the
no-trailing-hyphen guarantee. -/
theorem sanitizeName_trailing_hyphen_cex :
    (sanitizeName (String.mk (List.replicate 49 'a' ++ ['-', 'b']))).data.getLast?
      = some '-' := by
  decide

/-- Claim C6 (amended): every sanitizeName result uses only lowercase
alphanumerics and hyphens, has length at most 50, and never starts with a
hyphen; it also never ends with a hyphen provided the trimmed form fits in
50 characters before the final slice (which holds for every name cmdCreate
builds, `cockpit-` plus a 15-character timestamp), but truncation of a
longer input can reintroduce a trailing hyphen. -/
theorem sanitizeName_slug_props (s : String) :
    (sanitizeName s).data.all isSlugChar = true ∧
    (sanitizeName s).data.length ≤ 50 ∧
    (sanitizeName s).data.head? ≠ some '-' ∧
    ((trimHyphens (collapseRuns (toLowerChars s))).length ≤ 50 →
        (sanitizeName s).data.getLast? ≠ some '-') := by
  refine ⟨?_, ?_, ?_, ?_⟩
  · rw [List.all_eq_true]
    intro c hc
    have h1 : c ∈ trimHyphens (collapseRuns (toLowerChars s)) :=
      (List.take_sublist 50 _).subset hc
    exact collapseRunsAux_mem_slug _ false c (mem_trimHyphens h1)
  · simp only [sanitizeName, List.length_take]
    omega
  · intro hc
    have hpre : (sanitizeName s).data <+:
        (collapseRuns (toLowerChars s)).dropWhile isHyphen :=
      (List.take_prefix 50 _).trans (dropTrailingHyphens_pre _)
    rcases prefix_head_eq_or_none hpre with hn | he
    · rw [hn] at hc; cases hc
    · rw [he] at hc
      have := head_dropWhile_not isHyphen (collapseRuns (toLowerChars s)) '-' hc
      simp [isHyphen] at this
  · intro hlen hc
    have heq : (sanitizeName s).data = trimHyphens (collapseRuns (toLowerChars s)) := by
      simp only [sanitizeName]
      exact List.take_of_length_le hlen
    rw [heq] at hc
    have := getLast_dropTrailingHyphens ((collapseRuns (toLowerChars s)).dropWhile isHyphen)
      '-' hc
    simp [isHyphen] at this

/-- Witness for the amended C6 at the shape cmdCreate uses
(`cockpit-` plus a timestamp, here with a stray uppercase and punctuation):
the trimmed form fits in 50 characters, so no trailing hyphen appears. -/
theorem sanitizeName_slug_props_witness :
    (trimHyphens (collapseRuns (toLowerChars "Cockpit-20260101 000000!"))).length ≤ 50 ∧
    (sanitizeName "Cockpit-20260101 000000!").data.getLast? ≠ some '-' :=
  ⟨by decide, (sanitizeName_slug_props "Cockpit-20260101 000000!").2.2.2 (by decide)⟩

/-- Claim C7: an inbound frame that is not an adapter-parsed object and is
undecodable, or decodes to text the JSON parser rejects, makes the message
handler send exactly one error-typed event, forward nothing, and leave the
connection open; processing of the frame stream then continues with the
following frames. -/
theorem ws_malformed_message (parse : String → JsonOutcome) (msg : RawWsMsg)
    (hobj : ∀ m, msg ≠ RawWsMsg.parsedObj m) :
    (decodeWsMessage msg = none →
        wsMessage parse msg =
          { sent := [OutEvent.errorEv "Invalid WebSocket message"], forwarded := none,
            closedConn := false }) ∧
    (∀ s e, decodeWsMessage msg = some s → parse s = JsonOutcome.parseError e →
        wsMessage parse msg =
          { sent := [OutEvent.errorEv ("Invalid message: " ++ e)], forwarded := none,
            closedConn := false }) ∧
    (∀ rest, wsMessages parse (msg :: rest)
        = wsMessage parse msg :: wsMessages parse rest) := by
  refine ⟨?_, ?_, ?_⟩
  · intro hdec
    cases msg with
    | parsedObj m => exact absurd rfl (hobj m)
    | text s => simp [wsMessage, hdec]
    | binary s => simp [wsMessage, hdec]
    | wrapped inner => simp [wsMessage, hdec]
    | other => simp [wsMessage, hdec]
  · intro s e hdec hparse
    cases msg with
    | parsedObj m => exact absurd rfl (hobj m)
    | text t => simp [wsMessage, hdec, hparse]
    | binary t => simp [wsMessage, hdec, hparse]
    | wrapped inner => simp [wsMessage, hdec, hparse]
    | other => simp [wsMessage, hdec, hparse]
  · intro rest
    simp [wsMessages, wsMessage_closedConn_false]

/-- Witness for C7: a non-JSON text frame produces the single
JSON-parse-error event, and an undecodable frame produces the single
invalid-message event; the connection stays open in both. -/
theorem ws_malformed_message_witness :
    wsMessage (fun _ => JsonOutcome.parseError "SyntaxError") (RawWsMsg.text "not json")
      = { sent := [OutEvent.errorEv ("Invalid message: " ++ "SyntaxError")],
          forwarded := none, closedConn := false } ∧
    wsMessage (fun _ => JsonOutcome.parseError "SyntaxError") RawWsMsg.other
      = { sent := [OutEvent.errorEv "Invalid WebSocket message"], forwarded := none,
          closedConn := false } :=
  ⟨(ws_malformed_message (fun _ => JsonOutcome.parseError "SyntaxError")
      (RawWsMsg.text "not json") (fun m => by simp)).2.1 "not json" "SyntaxError" rfl rfl,
   (ws_malformed_message (fun _ => JsonOutcome.parseError "SyntaxError")
      RawWsMsg.other (fun m => by simp)).1 rfl⟩

/-- Claim C8: handleClientMessage surfaces the no-active-session error for
an unknown sprite id and does nothing else; with a session, a prompt with
missing or empty text is a silent no-op, a prompt with text forwards it to
the session (a rejection surfacing as one error through the callback), and
an abort signals the session to cancel. -/
theorem handle_client_message_policy (st : BridgeState) (spriteId : String)
    (msg : ClientMessage) :
    (st.table.lookup spriteId = none →
        handleClientMessage st spriteId msg =
          { errorsSent := ["No active session"], command := none }) ∧
    (∀ cid obj, st.table.lookup spriteId = some cid → st.heap.lookup cid = some obj →
        (msg.kind = MsgKind.prompt →
            (msg.payloadText = none ∨ msg.payloadText = some "") →
            handleClientMessage st spriteId msg = { errorsSent := [], command := none }) ∧
        (∀ t, msg.kind = MsgKind.prompt → msg.payloadText = some t → t ≠ "" →
            handleClientMessage st spriteId msg =
              { errorsSent := [], command := some (AgentCommand.promptAgent obj.sessionId t) }) ∧
        (msg.kind = MsgKind.abort →
            handleClientMessage st spriteId msg =
              { errorsSent := [], command := some (AgentCommand.abortAgent obj.sessionId) })) ∧
    (∀ e, promptCompletionErrors (Except.error e) = [e]) := by
  refine ⟨?_, ?_, fun e => rfl⟩
  · intro hnone
    simp [handleClientMessage, hnone]
  · intro cid obj htab hheap
    refine ⟨?_, ?_, ?_⟩
    · intro hk hp
      rcases hp with hp | hp <;> simp [handleClientMessage, htab, hheap, hk, hp]
    · intro t hk hp ht
      simp [handleClientMessage, htab, hheap, hk, hp, ht]
    · intro hk
      simp [handleClientMessage, htab, hheap, hk]

/-- Witness for C8 on the bridge state after one connect: an abort is
forwarded to the existing session, and a message for an unknown sprite id
surfaces the no-active-session error. -/
theorem handle_client_message_policy_witness :
    handleClientMessage (connectFresh emptyBridge 1 "s1") "s1"
        { kind := MsgKind.abort, payloadText := none }
      = { errorsSent := [], command := some (AgentCommand.abortAgent 0) } ∧
    handleClientMessage (connectFresh emptyBridge 1 "s1") "nope"
        { kind := MsgKind.abort, payloadText := none }
      = { errorsSent := ["No active session"], command := none } :=
  ⟨((handle_client_message_policy (connectFresh emptyBridge 1 "s1") "s1"
      { kind := MsgKind.abort, payloadText := none }).2.1 0
      { sessionId := 0, unsubTok := some 0 } (by decide) (by decide)).2.2 rfl,
   (handle_client_message_policy (connectFresh emptyBridge 1 "s1") "nope"
      { kind := MsgKind.abort, payloadText := none }).1 (by decide)⟩

/-- Claim C9: when the requested branch cannot be cloned but the default
branch can, the clone script exits 0 after a shallow default-branch clone
and a warning, and the pipeline's runOk wrapper does not throw, so the
pipeline continues. -/
theorem clone_branch_fallback (w : CloneWorld)
    (hbranch : w.branchCloneOk = false) (hdef : w.defaultCloneOk = true) :
    runRemoteCloneScript w =
      { exitCode := 0, warned := true, cloned := some CloneChoice.defaultBranch,
        shallow := true } ∧
    runOkThrows false (runRemoteCloneScript w).exitCode = false := by
  simp [runRemoteCloneScript, hbranch, hdef, runOkThrows]

/-- Witness for C9 at the concrete world where only the default branch
clones. -/
theorem clone_branch_fallback_witness :
    runRemoteCloneScript { branchCloneOk := false, defaultCloneOk := true } =
      { exitCode := 0, warned := true, cloned := some CloneChoice.defaultBranch,
        shallow := true } ∧
    runOkThrows false
      (runRemoteCloneScript { branchCloneOk := false, defaultCloneOk := true }).exitCode
      = false :=
  clone_branch_fallback { branchCloneOk := false, defaultCloneOk := true } rfl rfl

/-- Claim C10: opening a WebSocket for a sprite id absent from the registry
sends exactly one error event with message "Sprite not found" and closes
the connection, with no agent setup and no status update. -/
theorem ws_open_unknown_sprite (storeGet : String → Option SpriteInfo) (spriteId : String)
    (h : storeGet spriteId = none) :
    wsOpen storeGet spriteId =
      { sent := [OutEvent.errorEv "Sprite not found"], closedConn := true,
        setupCalled := false, statusUpdate := none } := by
  simp [wsOpen, h]

/-- Witness for C10 against the empty registry. -/
theorem ws_open_unknown_sprite_witness :
    wsOpen (fun _ => none) "ghost" =
      { sent := [OutEvent.errorEv "Sprite not found"], closedConn := true,
        setupCalled := false, statusUpdate := none } :=
  ws_open_unknown_sprite (fun _ => none) "ghost" rfl

end Cockpit
